import Mathlib

/-!
ServiceNow-INC-Predictor: request lifecycle and result rendering.

A shallow embedding of the two React components of the repository:

* `src/FrontEnd/src/App.jsx` — the *list* variant: submits the form with an
  explicit `Content-Type: application/json` header and renders the
  predictions with `Object.entries`.
* `src/unnamed/part_000` — the *chart* variant: submits the form (axios
  serializes the plain-object body as JSON with the default
  `Content-Type: application/json` header) and renders a bar chart with the
  hard-coded labels `P1`..`P4`.

Both components keep five `useState` cells: `date`, `assignmentGroup`,
`response`, `loading`, `error`.  `handleSubmit` sets `loading := true`,
clears `error` and `response`, posts `{ date, assignment_group }` to
`http://127.0.0.1:8000/predict`, and on resolution either stores `res.data`
(any 2xx body, no shape validation) or stores a fixed generic error string;
`finally` resets `loading`.  React 18 batches the state updates of each
event-handler continuation, so the observable states are those after each
whole phase (submit start / resolution), which is how `step` is modelled.
The submit button carries `disabled={loading}`, and HTML implicit form
submission is suppressed when the default button is disabled, so a submit
event reaches `handleSubmit` only when `loading` is false; `formSubmit`
embeds that guard.
-/

/-- JSON-ish values as JavaScript sees them: `undefined` is JavaScript's
`undefined` (the result of reading an absent property), objects are
insertion-ordered association lists, numbers are integral counts. -/
inductive JsVal where
  | undefined
  | null
  | str (s : String)
  | num (n : Int)
  | obj (fields : List (String × JsVal))
deriving Repr

/-- First binding for key `k` in an insertion-ordered field list; absent
keys read as JavaScript `undefined`. -/
def lookupField (fields : List (String × JsVal)) (k : String) : JsVal :=
  match fields with
  | [] => .undefined
  | (k', v) :: rest => if k' = k then v else lookupField rest k

/-- JavaScript property read `base[k]`: throws a `TypeError` when the base
is `undefined` or `null`; reads a field of an object; yields `undefined`
on other primitives. -/
def getField (base : JsVal) (k : String) : Except String JsVal :=
  match base with
  | .undefined => .error "TypeError: cannot read properties of undefined"
  | .null => .error "TypeError: cannot read properties of null"
  | .obj fields => .ok (lookupField fields k)
  | .str _ => .ok .undefined
  | .num _ => .ok .undefined

/-- Entries of a value as `Object.entries` computes them: the own
enumerable entries of an object in insertion order; throws on
`undefined`/`null`; a string enumerates its indexed characters; a number
has no entries. -/
def objectEntries (v : JsVal) : Except String (List (String × JsVal)) :=
  match v with
  | .undefined => .error "TypeError: cannot convert undefined to object"
  | .null => .error "TypeError: cannot convert null to object"
  | .obj fields => .ok fields
  | .str s => .ok ((List.range s.length).map
      (fun i => (toString i, JsVal.str (String.mk (s.toList.drop i |>.take 1)))))
  | .num _ => .ok []

/-- The component state: the five `useState` cells shared by both variants
(`App.jsx` lines 5–9, `part_000` lines 10–14). -/
structure AppState where
  date : String
  assignmentGroup : String
  response : Option JsVal
  loading : Bool
  error : Option String
deriving Repr

/-- All five cells start empty/false (`useState("")`, `useState(null)`,
`useState(false)`). -/
def initialState : AppState :=
  { date := "", assignmentGroup := "", response := none,
    loading := false, error := none }

/-- How a posted request resolves, as observed by the `axios` promise:
a 2xx response with its body, a non-2xx response (axios rejects, carrying
the status and the server body), or a network error. -/
inductive Outcome where
  | success (body : JsVal)
  | httpError (status : Nat) (body : JsVal)
  | networkError (detail : String)
deriving Repr

/-- An HTTP request as issued by `axios.post`. -/
structure Request where
  method : String
  url : String
  body : JsVal
  contentType : Option String
deriving Repr

/-- The request built by the list variant (`App.jsx` lines 18–27):
`axios.post("http://127.0.0.1:8000/predict", { date, assignment_group:
assignmentGroup }, { headers: { "Content-Type": "application/json" } })`. -/
def listBuildRequest (date assignmentGroup : String) : Request :=
  { method := "POST"
    url := "http://127.0.0.1:8000/predict"
    body := .obj [("date", .str date), ("assignment_group", .str assignmentGroup)]
    contentType := some "application/json" }

/-- The request built by the chart variant (`part_000` lines 24–27): same
POST and body, no explicit header — axios serializes a plain-object body
as JSON and sets `Content-Type: application/json` by default. -/
def chartBuildRequest (date assignmentGroup : String) : Request :=
  { method := "POST"
    url := "http://127.0.0.1:8000/predict"
    body := .obj [("date", .str date), ("assignment_group", .str assignmentGroup)]
    contentType := some "application/json" }

/-- The fixed generic error message of the list variant
(`App.jsx` line 30). -/
def listGenericMessage : String := "Failed to fetch data. Please try again."

/-- The fixed generic error message of the chart variant
(`part_000` line 30). -/
def chartGenericMessage : String := "Something went wrong. Please try again."

/-- The synchronous head of `handleSubmit` in both variants:
`setLoading(true); setError(null); setResponse(null)` — runs before the
request is posted, so the `Submitting` state is entered immediately. -/
def submitStart (s : AppState) : AppState :=
  { s with loading := true, error := none, response := none }

/-- The continuation of the list variant's `handleSubmit` once the request
resolves (`App.jsx` lines 28–33): on 2xx, `setResponse(res.data)` with no
shape validation; on any rejection (non-2xx or network error),
`setError("Failed to fetch data. Please try again.")` ignoring `err`;
`finally { setLoading(false) }` in every case. -/
def listHandleResolve (o : Outcome) (s : AppState) : AppState :=
  match o with
  | .success body => { s with response := some body, loading := false }
  | .httpError _ _ => { s with error := some listGenericMessage, loading := false }
  | .networkError _ => { s with error := some listGenericMessage, loading := false }

/-- The continuation of the chart variant's `handleSubmit` once the request
resolves (`part_000` lines 28–33): identical shape, with the message
`"Something went wrong. Please try again."`. -/
def chartHandleResolve (o : Outcome) (s : AppState) : AppState :=
  match o with
  | .success body => { s with response := some body, loading := false }
  | .httpError _ _ => { s with error := some chartGenericMessage, loading := false }
  | .networkError _ => { s with error := some chartGenericMessage, loading := false }

/-- A form-submission attempt in the list variant.  The submit button has
`disabled={loading}` (`App.jsx` lines 67–73) and it is the form's only
(default) button, so while `loading` is true neither a click nor implicit
submission reaches `handleSubmit`: the attempt is a no-op and no request is
issued.  Otherwise the synchronous head of `handleSubmit` runs and one
request, built from the current field values, is posted. -/
def formSubmit (s : AppState) : AppState × Option Request :=
  if s.loading then (s, none)
  else (submitStart s, some (listBuildRequest s.date s.assignmentGroup))

/-- The discrete events driving the list variant: field edits (the
`onChange` handlers), a form-submission attempt, and the resolution of the
in-flight request. -/
inductive Event where
  | setDate (v : String)
  | setAssignmentGroup (v : String)
  | formSubmitEv
  | resolve (o : Outcome)
deriving Repr

/-- Whether an event is a field edit. -/
def isFieldEdit : Event → Bool
  | .setDate _ => true
  | .setAssignmentGroup _ => true
  | _ => false

/-- One event of the list variant.  A `resolve` event can only be delivered
while a request is in flight, i.e. while `loading` is true (the promise
continuation of the single outstanding `axios.post`); it returns the state
unchanged otherwise since no such continuation exists.  The second
component is the request issued by the event, if any. -/
def step (s : AppState) (e : Event) : AppState × Option Request :=
  match e with
  | .setDate v => ({ s with date := v }, none)
  | .setAssignmentGroup v => ({ s with assignmentGroup := v }, none)
  | .formSubmitEv => formSubmit s
  | .resolve o => if s.loading then (listHandleResolve o s, none) else (s, none)

/-- Run a list of events, collecting the issued requests in order. -/
def runCollect (s : AppState) : List Event → AppState × List Request
  | [] => (s, [])
  | e :: es =>
    let p := step s e
    let q := runCollect p.1 es
    (q.1, p.2.toList ++ q.2)

/-- The state after a list of events. -/
def runTrace (s : AppState) (es : List Event) : AppState :=
  (runCollect s es).1

/-- States reachable from the initial state by some event sequence. -/
def Reachable (s : AppState) : Prop :=
  ∃ es : List Event, runTrace initialState es = s

/-- The spec's `RequestState`: `Idle | Submitting | Succeeded(result) |
Failed(message)`. -/
inductive RequestState where
  | idle
  | submitting
  | succeeded (result : JsVal)
  | failed (message : String)
deriving Repr

/-- Reads the three cells `loading`/`response`/`error` as a `RequestState`;
`none` when no single variant describes them (result and error both
present). -/
def viewState (s : AppState) : Option RequestState :=
  if s.loading then some .submitting
  else
    match s.response, s.error with
    | some r, none => some (.succeeded r)
    | none, some m => some (.failed m)
    | none, none => some .idle
    | some _, some _ => none

/-- Whether every field of a JavaScript object maps to a number. -/
def allNumFields (fields : List (String × JsVal)) : Bool :=
  fields.all (fun p => match p.2 with | .num _ => true | _ => false)

/-- The `PredictionResult` shape of the service contract: an object whose
`date` and `assignment_group` fields are strings and whose `predictions`
field is an object of numeric counts. -/
def isWellFormedResult (v : JsVal) : Bool :=
  match v with
  | .obj fields =>
    (match lookupField fields "date" with | .str _ => true | _ => false) &&
    (match lookupField fields "assignment_group" with | .str _ => true | _ => false) &&
    (match lookupField fields "predictions" with
     | .obj preds => allNumFields preds
     | _ => false)
  | _ => false

/-- The list variant's summarization (`App.jsx` lines 98–105):
`Object.entries(response.predictions)` rendered in order — the displayed
pairs are exactly the entries of the `predictions` field, and the property
read or `Object.entries` throws when that field is absent or not an
object. -/
def listRenderSummary (response : JsVal) : Except String (List (String × JsVal)) := do
  let preds ← getField response "predictions"
  objectEntries preds

/-- The chart variant's summarization (`part_000` lines 85–100): the labels
are hard-coded to `["P1","P2","P3","P4"]` and the data reads exactly
`response.predictions.P1` .. `.P4`; reading a property of an
absent/non-object `predictions` throws. -/
def chartRenderSummary (response : JsVal) : Except String (List (String × JsVal)) := do
  let preds ← getField response "predictions"
  let p1 ← getField preds "P1"
  let p2 ← getField preds "P2"
  let p3 ← getField preds "P3"
  let p4 ← getField preds "P4"
  pure [("P1", p1), ("P2", p2), ("P3", p3), ("P4", p4)]

/-- The state-machine invariant behind the spec's `RequestState`: while
loading, neither a result nor an error is stored, and a result and an
error are never stored together. -/
def StateInv (s : AppState) : Prop :=
  (s.loading = true → s.response = none ∧ s.error = none) ∧
  (s.response = none ∨ s.error = none)

theorem stateInv_initial : StateInv initialState := by
  constructor
  · intro h; exact ⟨rfl, rfl⟩
  · exact Or.inl rfl

theorem stateInv_step (s : AppState) (e : Event) (h : StateInv s) :
    StateInv (step s e).1 := by
  obtain ⟨h₁, h₂⟩ := h
  cases e with
  | setDate v => exact ⟨h₁, h₂⟩
  | setAssignmentGroup v => exact ⟨h₁, h₂⟩
  | formSubmitEv =>
    by_cases hl : s.loading
    · simpa [step, formSubmit, hl] using ⟨h₁, h₂⟩
    · simp only [step, formSubmit, hl, if_neg, Bool.false_eq_true, if_false]
      exact ⟨fun _ => ⟨rfl, rfl⟩, Or.inl rfl⟩
  | resolve o =>
    by_cases hl : s.loading
    · obtain ⟨hr, he⟩ := h₁ hl
      cases o with
      | success body =>
        simp only [step, hl, if_true, listHandleResolve]
        exact ⟨fun hc => absurd hc (by simp), Or.inr he⟩
      | httpError status body =>
        simp only [step, hl, if_true, listHandleResolve]
        exact ⟨fun hc => absurd hc (by simp), Or.inl hr⟩
      | networkError detail =>
        simp only [step, hl, if_true, listHandleResolve]
        exact ⟨fun hc => absurd hc (by simp), Or.inl hr⟩
    · simpa [step, hl] using ⟨h₁, h₂⟩

theorem stateInv_runTrace (es : List Event) (s : AppState) (h : StateInv s) :
    StateInv (runTrace s es) := by
  induction es generalizing s with
  | nil => exact h
  | cons e es ih => exact ih (step s e).1 (stateInv_step s e h)

/-- Field edits delivered while a request is in flight issue no request. -/
theorem fieldEdits_issue_nothing (es : List Event) (s : AppState)
    (hl : s.loading = true) (h : ∀ e ∈ es, isFieldEdit e = true) :
    (runCollect s es).2 = [] := by
  induction es generalizing s with
  | nil => rfl
  | cons e es ih =>
    have he := h e (List.mem_cons_self e es)
    have hrest : ∀ e' ∈ es, isFieldEdit e' = true :=
      fun e' he' => h e' (List.mem_cons_of_mem e he')
    cases e with
    | setDate v =>
      simpa [runCollect, step] using ih { s with date := v } hl hrest
    | setAssignmentGroup v =>
      simpa [runCollect, step] using ih { s with assignmentGroup := v } hl hrest
    | formSubmitEv => simp [isFieldEdit] at he
    | resolve o => simp [isFieldEdit] at he

/-- A convenient concrete submitting state used by witnesses. -/
def submittingDemo : AppState :=
  { date := "2024-01-01", assignmentGroup := "NETWORK", response := none,
    loading := true, error := none }

/-- A convenient concrete idle state with a stale result, used by
witnesses. -/
def idleWithResultDemo : AppState :=
  { date := "2024-01-01", assignmentGroup := "NETWORK",
    response := some (JsVal.obj []), loading := false, error := none }

/-- C3: while the controller is `Submitting` (`loading` true), a
form-submission attempt is a no-op — the state is unchanged and no second
request is issued, so at most one request is ever in flight. -/
theorem submit_noop_while_submitting (s : AppState) (h : s.loading = true) :
    step s Event.formSubmitEv = (s, none) := by
  simp [step, formSubmit, h]

/-- Witness for C3 at a concrete submitting state. -/
theorem submit_noop_while_submitting_witness :
    submittingDemo.loading = true ∧
    step submittingDemo Event.formSubmitEv = (submittingDemo, none) :=
  ⟨rfl, submit_noop_while_submitting submittingDemo rfl⟩

/-- C6: from any non-`Submitting` state (`Idle`, `Succeeded` or `Failed`)
with valid (non-empty) fields, a submission immediately enters
`Submitting`, clearing any previously stored result and error, before any
response arrives. -/
theorem submit_enters_submitting (s : AppState) (hl : s.loading = false)
    (_hd : s.date ≠ "") (_ha : s.assignmentGroup ≠ "") :
    (formSubmit s).1 = { s with loading := true, response := none, error := none } ∧
    viewState (formSubmit s).1 = some RequestState.submitting ∧
    (formSubmit s).2 = some (listBuildRequest s.date s.assignmentGroup) := by
  refine ⟨?_, ?_, ?_⟩
  · simp [formSubmit, hl, submitStart]
  · simp [formSubmit, hl, submitStart, viewState]
  · simp [formSubmit, hl]

/-- Witness for C6 at a concrete idle state holding a stale result. -/
theorem submit_enters_submitting_witness :
    idleWithResultDemo.loading = false ∧ idleWithResultDemo.date ≠ "" ∧
    idleWithResultDemo.assignmentGroup ≠ "" ∧
    ((formSubmit idleWithResultDemo).1 =
      { idleWithResultDemo with loading := true, response := none, error := none } ∧
     viewState (formSubmit idleWithResultDemo).1 = some RequestState.submitting ∧
     (formSubmit idleWithResultDemo).2 =
       some (listBuildRequest idleWithResultDemo.date idleWithResultDemo.assignmentGroup)) :=
  ⟨rfl, by decide, by decide,
    submit_enters_submitting idleWithResultDemo rfl (by decide) (by decide)⟩

/-- C7: every request issued by a submission is a POST to the `/predict`
endpoint whose JSON body has exactly the fields `date` and
`assignment_group` taken from the form fields, carrying the header
`Content-Type: application/json`; the chart variant builds the identical
request. -/
theorem request_is_post_predict_json (s : AppState) (hl : s.loading = false) :
    (formSubmit s).2 = some (listBuildRequest s.date s.assignmentGroup) ∧
    (listBuildRequest s.date s.assignmentGroup).method = "POST" ∧
    (listBuildRequest s.date s.assignmentGroup).url = "http://127.0.0.1:8000/predict" ∧
    ("http://127.0.0.1:8000/predict" = "http://127.0.0.1:8000" ++ "/predict") ∧
    (listBuildRequest s.date s.assignmentGroup).body =
      JsVal.obj [("date", JsVal.str s.date),
                 ("assignment_group", JsVal.str s.assignmentGroup)] ∧
    (listBuildRequest s.date s.assignmentGroup).contentType = some "application/json" ∧
    chartBuildRequest s.date s.assignmentGroup = listBuildRequest s.date s.assignmentGroup := by
  refine ⟨?_, rfl, rfl, by decide, rfl, rfl, rfl⟩
  simp [formSubmit, hl]

/-- Witness for C7 at a concrete idle state. -/
theorem request_is_post_predict_json_witness :
    initialState.loading = false ∧
    ((formSubmit initialState).2 =
      some (listBuildRequest initialState.date initialState.assignmentGroup) ∧
     (listBuildRequest initialState.date initialState.assignmentGroup).method = "POST" ∧
     (listBuildRequest initialState.date initialState.assignmentGroup).url =
       "http://127.0.0.1:8000/predict" ∧
     ("http://127.0.0.1:8000/predict" = "http://127.0.0.1:8000" ++ "/predict") ∧
     (listBuildRequest initialState.date initialState.assignmentGroup).body =
       JsVal.obj [("date", JsVal.str initialState.date),
                  ("assignment_group", JsVal.str initialState.assignmentGroup)] ∧
     (listBuildRequest initialState.date initialState.assignmentGroup).contentType =
       some "application/json" ∧
     chartBuildRequest initialState.date initialState.assignmentGroup =
       listBuildRequest initialState.date initialState.assignmentGroup) :=
  ⟨rfl, request_is_post_predict_json initialState rfl⟩

/-- C5: an HTTP 500 (indeed any non-2xx status, whatever the server body)
and a thrown network error resolve to identical `Failed` states; in each
variant the message is the same fixed, non-empty constant in both runs,
independent of the raw error value and containing no server text. -/
theorem failure_collapses_uniformly (s : AppState) (status : Nat)
    (serverBody : JsVal) (detail : String) :
    listHandleResolve (Outcome.httpError status serverBody) s =
      listHandleResolve (Outcome.networkError detail) s ∧
    (listHandleResolve (Outcome.httpError status serverBody) s).error =
      some listGenericMessage ∧
    chartHandleResolve (Outcome.httpError status serverBody) s =
      chartHandleResolve (Outcome.networkError detail) s ∧
    (chartHandleResolve (Outcome.httpError status serverBody) s).error =
      some chartGenericMessage ∧
    listGenericMessage ≠ "" ∧ chartGenericMessage ≠ "" :=
  ⟨rfl, rfl, rfl, rfl, by decide, by decide⟩

/-- C1 counterexample: the body `{}` does not match the `PredictionResult`
shape, yet resolving a 2xx response carrying it from the submitting state
yields `Succeeded({})`, not `Failed(genericMessage)` — the success path
performs no shape validation. -/
theorem malformed_body_succeeds_counterexample :
    isWellFormedResult (JsVal.obj []) = false ∧
    viewState (listHandleResolve (Outcome.success (JsVal.obj []))
        (submitStart initialState)) =
      some (RequestState.succeeded (JsVal.obj [])) ∧
    viewState (listHandleResolve (Outcome.success (JsVal.obj []))
        (submitStart initialState)) ≠
      some (RequestState.failed listGenericMessage) := by
  refine ⟨rfl, rfl, ?_⟩
  intro h
  rw [show viewState (listHandleResolve (Outcome.success (JsVal.obj []))
        (submitStart initialState)) =
      some (RequestState.succeeded (JsVal.obj [])) from rfl] at h
  exact RequestState.noConfusion (Option.some.injEq _ _ ▸ h)

/-- C1 amended: a network error or a non-2xx status resolves to
`Failed` with the variant's fixed generic message, but a 2xx response is
stored as `Succeeded` whatever its body, so a malformed 2xx body yields
`Succeeded`, not `Failed`. -/
theorem failure_resolution_amended (s : AppState) (status : Nat)
    (body serverBody : JsVal) (detail : String) :
    viewState (listHandleResolve (Outcome.httpError status serverBody)
      (submitStart s)) = some (RequestState.failed listGenericMessage) ∧
    viewState (listHandleResolve (Outcome.networkError detail)
      (submitStart s)) = some (RequestState.failed listGenericMessage) ∧
    viewState (listHandleResolve (Outcome.success body)
      (submitStart s)) = some (RequestState.succeeded body) ∧
    viewState (chartHandleResolve (Outcome.httpError status serverBody)
      (submitStart s)) = some (RequestState.failed chartGenericMessage) ∧
    viewState (chartHandleResolve (Outcome.networkError detail)
      (submitStart s)) = some (RequestState.failed chartGenericMessage) ∧
    viewState (chartHandleResolve (Outcome.success body)
      (submitStart s)) = some (RequestState.succeeded body) :=
  ⟨rfl, rfl, rfl, rfl, rfl, rfl⟩

/-- A well-formed result whose predictions mapping holds the single,
unexpected key `P5`. -/
def extraKeyResult : JsVal :=
  .obj [("date", .str "2024-01-01"), ("assignment_group", .str "NETWORK"),
        ("predictions", .obj [("P5", .num 3)])]

/-- C2 counterexample: on a well-formed result whose predictions mapping is
`{P5: 3}`, the list presenter passes the pair through, but the chart
presenter — whose labels `P1`..`P4` are hard-coded — drops it and reads the
four absent hard-coded keys as `undefined`. -/
theorem summarize_hardcoded_counterexample :
    isWellFormedResult extraKeyResult = true ∧
    listRenderSummary extraKeyResult = .ok [("P5", JsVal.num 3)] ∧
    chartRenderSummary extraKeyResult =
      .ok [("P1", JsVal.undefined), ("P2", JsVal.undefined),
           ("P3", JsVal.undefined), ("P4", JsVal.undefined)] ∧
    chartRenderSummary extraKeyResult ≠ .ok [("P5", JsVal.num 3)] := by
  refine ⟨rfl, rfl, rfl, ?_⟩
  intro h
  rw [show chartRenderSummary extraKeyResult =
      .ok [("P1", JsVal.undefined), ("P2", JsVal.undefined),
           ("P3", JsVal.undefined), ("P4", JsVal.undefined)] from rfl] at h
  have h₂ := Except.ok.injEq _ _ ▸ h
  have h₃ : ("P1", JsVal.undefined) = ("P5", JsVal.num 3) := (List.cons.injEq _ _ _ _ ▸ h₂).1
  have h₄ : "P1" = "P5" := (Prod.mk.injEq _ _ _ _ ▸ h₃).1
  exact absurd h₄ (by decide)

/-- C2 amended: the list presenter returns exactly the key/value pairs of
`result.predictions` (an empty mapping yields an empty sequence,
unexpected extra keys pass through); the chart presenter instead
hard-codes the key set `P1`..`P4`, reading exactly those four keys (absent
ones as `undefined`) and ignoring all others. -/
theorem summarize_amended (date ag : String) (preds : List (String × JsVal)) :
    listRenderSummary (JsVal.obj [("date", JsVal.str date),
      ("assignment_group", JsVal.str ag), ("predictions", JsVal.obj preds)]) =
      .ok preds ∧
    chartRenderSummary (JsVal.obj [("date", JsVal.str date),
      ("assignment_group", JsVal.str ag), ("predictions", JsVal.obj preds)]) =
      .ok [("P1", lookupField preds "P1"), ("P2", lookupField preds "P2"),
           ("P3", lookupField preds "P3"), ("P4", lookupField preds "P4")] :=
  ⟨rfl, rfl⟩

/-- C10: the success path performs no shape validation — any 2xx body
whatsoever is stored as the `Succeeded` payload in both variants — and on
a stored payload without a `predictions` object (here
`{date: "2024-01-01"}`) both presenters throw a `TypeError` instead of
producing a summary. -/
theorem success_unvalidated_render_throws :
    (∀ (s : AppState) (body : JsVal),
      viewState (listHandleResolve (Outcome.success body) (submitStart s)) =
        some (RequestState.succeeded body) ∧
      viewState (chartHandleResolve (Outcome.success body) (submitStart s)) =
        some (RequestState.succeeded body)) ∧
    listRenderSummary (JsVal.obj [("date", JsVal.str "2024-01-01")]) =
      .error "TypeError: cannot convert undefined to object" ∧
    chartRenderSummary (JsVal.obj [("date", JsVal.str "2024-01-01")]) =
      .error "TypeError: cannot read properties of undefined" :=
  ⟨fun _ _ => ⟨rfl, rfl⟩, rfl, rfl⟩

/-- C9 counterexample: from the same fields and the same network-error
response, the two variants' controllers reach `Failed` states whose
messages differ — `"Failed to fetch data. Please try again."` versus
`"Something went wrong. Please try again."` — so the reached
`RequestState`s are not equal. -/
theorem variant_states_differ_counterexample :
    (listHandleResolve (Outcome.networkError "ECONNREFUSED")
        (submitStart initialState)).error = some listGenericMessage ∧
    (chartHandleResolve (Outcome.networkError "ECONNREFUSED")
        (submitStart initialState)).error = some chartGenericMessage ∧
    listGenericMessage ≠ chartGenericMessage ∧
    listHandleResolve (Outcome.networkError "ECONNREFUSED")
        (submitStart initialState) ≠
      chartHandleResolve (Outcome.networkError "ECONNREFUSED")
        (submitStart initialState) := by
  refine ⟨rfl, rfl, by decide, ?_⟩
  intro h
  have h₂ := congrArg AppState.error h
  rw [show (listHandleResolve (Outcome.networkError "ECONNREFUSED")
        (submitStart initialState)).error = some listGenericMessage from rfl,
      show (chartHandleResolve (Outcome.networkError "ECONNREFUSED")
        (submitStart initialState)).error = some chartGenericMessage from rfl] at h₂
  exact absurd h₂ (by decide)

/-- C9 amended: the two variants share the same submission core — from any
state with no stored error, the same response outcome leads both
controllers to the same `RequestState` up to the variant's fixed `Failed`
message constant — and their presenters agree exactly on results whose
predictions mapping consists of the four keys `P1`..`P4` in order. -/
theorem variants_agree_up_to_message (s : AppState) (o : Outcome)
    (h : s.error = none) (date ag : String) (v1 v2 v3 v4 : JsVal) :
    chartHandleResolve o s =
      { listHandleResolve o s with
          error := (listHandleResolve o s).error.map
            (fun _ => chartGenericMessage) } ∧
    listRenderSummary (JsVal.obj [("date", JsVal.str date),
      ("assignment_group", JsVal.str ag),
      ("predictions", JsVal.obj [("P1", v1), ("P2", v2), ("P3", v3), ("P4", v4)])]) =
    chartRenderSummary (JsVal.obj [("date", JsVal.str date),
      ("assignment_group", JsVal.str ag),
      ("predictions", JsVal.obj [("P1", v1), ("P2", v2), ("P3", v3), ("P4", v4)])]) := by
  refine ⟨?_, rfl⟩
  cases o with
  | success body => simp [listHandleResolve, chartHandleResolve, h]
  | httpError status body => simp [listHandleResolve, chartHandleResolve]
  | networkError detail => simp [listHandleResolve, chartHandleResolve]

/-- Witness for C9's amended theorem at a concrete state and outcome. -/
theorem variants_agree_up_to_message_witness :
    submittingDemo.error = none ∧
    (chartHandleResolve (Outcome.networkError "ECONNREFUSED") submittingDemo =
      { listHandleResolve (Outcome.networkError "ECONNREFUSED") submittingDemo with
          error := (listHandleResolve (Outcome.networkError "ECONNREFUSED")
            submittingDemo).error.map (fun _ => chartGenericMessage) } ∧
     listRenderSummary (JsVal.obj [("date", JsVal.str "2024-01-01"),
       ("assignment_group", JsVal.str "NETWORK"),
       ("predictions", JsVal.obj [("P1", JsVal.num 10), ("P2", JsVal.num 20),
         ("P3", JsVal.num 5), ("P4", JsVal.num 1)])]) =
     chartRenderSummary (JsVal.obj [("date", JsVal.str "2024-01-01"),
       ("assignment_group", JsVal.str "NETWORK"),
       ("predictions", JsVal.obj [("P1", JsVal.num 10), ("P2", JsVal.num 20),
         ("P3", JsVal.num 5), ("P4", JsVal.num 1)])])) :=
  ⟨rfl, variants_agree_up_to_message submittingDemo
    (Outcome.networkError "ECONNREFUSED") rfl "2024-01-01" "NETWORK"
    (JsVal.num 10) (JsVal.num 20) (JsVal.num 5) (JsVal.num 1)⟩

/-- C4: in every reachable state exactly one `RequestState` variant holds —
loading implies no stored result and no stored error, a result and an
error are never both present, and the three cells always read back as some
single `RequestState`. -/
theorem reachable_single_variant (s : AppState) (h : Reachable s) :
    (s.loading = true → s.response = none ∧ s.error = none) ∧
    (s.response = none ∨ s.error = none) ∧
    (viewState s).isSome = true := by
  obtain ⟨es, rfl⟩ := h
  obtain ⟨h₁, h₂⟩ := stateInv_runTrace es initialState stateInv_initial
  refine ⟨h₁, h₂, ?_⟩
  set t := runTrace initialState es with ht
  by_cases hl : t.loading
  · simp [viewState, hl]
  · rcases h₂ with hr | he
    · cases he' : t.error <;> simp [viewState, hl, hr, he']
    · cases hr' : t.response <;> simp [viewState, hl, he, hr']

/-- Witness for C4 at the initial state, reachable by the empty trace. -/
theorem reachable_single_variant_witness :
    Reachable initialState ∧
    ((initialState.loading = true →
        initialState.response = none ∧ initialState.error = none) ∧
     (initialState.response = none ∨ initialState.error = none) ∧
     (viewState initialState).isSome = true) :=
  ⟨⟨[], rfl⟩, reachable_single_variant initialState ⟨[], rfl⟩⟩

/-- C8: the request issued by a submission is a function solely of the
`date` and `assignmentGroup` values at call time: whatever field edits are
delivered while the request is in flight, the run issues exactly the one
request built from the snapshot, so two executions differing only in
in-flight edits issue identical requests. -/
theorem request_snapshot_independent (s : AppState) (edits : List Event)
    (hl : s.loading = false) (h : ∀ e ∈ edits, isFieldEdit e = true) :
    (runCollect s (Event.formSubmitEv :: edits)).2 =
      [listBuildRequest s.date s.assignmentGroup] := by
  have hsub : step s Event.formSubmitEv =
      (submitStart s, some (listBuildRequest s.date s.assignmentGroup)) := by
    simp [step, formSubmit, hl]
  have hnil : (runCollect (submitStart s) edits).2 = [] :=
    fieldEdits_issue_nothing edits (submitStart s) rfl h
  simp [runCollect, hsub, hnil]

/-- Witness for C8: a concrete run that edits both fields in flight still
issues exactly the snapshot request. -/
theorem request_snapshot_independent_witness :
    initialState.loading = false ∧
    (∀ e ∈ [Event.setDate "2024-02-02", Event.setAssignmentGroup "STORAGE"],
      isFieldEdit e = true) ∧
    (runCollect initialState (Event.formSubmitEv ::
        [Event.setDate "2024-02-02", Event.setAssignmentGroup "STORAGE"])).2 =
      [listBuildRequest initialState.date initialState.assignmentGroup] :=
  ⟨rfl, by decide,
    request_snapshot_independent initialState
      [Event.setDate "2024-02-02", Event.setAssignmentGroup "STORAGE"]
      rfl (by decide)⟩
